import Mathlib

/-!
Shallow embedding of the PySpark data-quality script
`file_compare_pyspark.py`: the battery of checks it runs over the racing
telemetry dataframe, with Spark SQL's three-valued logic, its
null-propagating casts, and the per-check result records produced by
`add_result`.  The module-level straight-line execution of the script is
modelled in the `Except` monad: an unresolvable column reference raises,
exactly as Spark's analyzer does, and the script contains no handler.
-/

namespace RacingDQ

/-- Cell value of a dataframe: SQL null, a string, an integer, or a
fractional numeric (a Spark double is modelled as a rational). -/
inductive Cell where
  | null : Cell
  | str : String → Cell
  | int : Int → Cell
  | rat : ℚ → Cell
  deriving DecidableEq, Repr

/-- Value of a nonempty all-digit character run, read in base ten. -/
def parseDigits (cs : List Char) : Option Nat :=
  if !cs.isEmpty && cs.all Char.isDigit then
    some (cs.foldl (fun a c => a * 10 + (c.toNat - 48)) 0)
  else none

/-- Model of Spark's string-to-number cast: an optionally minus-signed
run of decimal digits parses, anything else casts to null.  (The real
cast also accepts fractional and exponent forms; no check in the script
is exercised on those by the properties below.) -/
def parseIntStr (s : String) : Option Int :=
  match s.data with
  | '-' :: t => (parseDigits t).map (fun n => -(n : Int))
  | cs => (parseDigits cs).map (fun n => (n : Int))

/-- Spark `cast("double")`: null and unparseable strings go to null. -/
def castDouble : Cell → Option ℚ
  | Cell.null => none
  | Cell.str s => (parseIntStr s).map (fun n => (n : ℚ))
  | Cell.int n => some (n : ℚ)
  | Cell.rat q => some q

/-- Truncation of a rational toward zero, as Spark casts double to long. -/
def truncQ (q : ℚ) : Int := if 0 ≤ q then ⌊q⌋ else -(⌊-q⌋)

/-- Spark `cast("long")`: null and unparseable strings go to null. -/
def castLong : Cell → Option Int
  | Cell.null => none
  | Cell.str s => parseIntStr s
  | Cell.int n => some n
  | Cell.rat q => some (truncQ q)

/-- Spark `cast("string")`: only null casts to null. -/
def castString : Cell → Option String
  | Cell.null => none
  | Cell.str s => some s
  | Cell.int n => some (toString n)
  | Cell.rat q => some (toString q)

/-- Three-valued SQL negation. -/
def not3 : Option Bool → Option Bool
  | some b => some (!b)
  | none => none

/-- Three-valued SQL conjunction: false dominates null. -/
def and3 : Option Bool → Option Bool → Option Bool
  | some false, _ => some false
  | _, some false => some false
  | some true, some true => some true
  | _, _ => none

/-- Three-valued SQL disjunction: true dominates null. -/
def or3 : Option Bool → Option Bool → Option Bool
  | some true, _ => some true
  | _, some true => some true
  | some false, some false => some false
  | _, _ => none

/-- SQL `isNull` on an already-cast value; never itself null. -/
def isNull3 (x : Option α) : Option Bool := some x.isNone

/-- SQL `isNotNull` on an already-cast value; never itself null. -/
def isNotNull3 (x : Option α) : Option Bool := some x.isSome

/-- Three-valued strict comparison of cast doubles. -/
def ltQ3 : Option ℚ → Option ℚ → Option Bool
  | some a, some b => some (decide (a < b))
  | _, _ => none

/-- Three-valued strict greater-than of cast doubles. -/
def gtQ3 (a b : Option ℚ) : Option Bool := ltQ3 b a

/-- Three-valued strict comparison of cast longs. -/
def ltI3 : Option Int → Option Int → Option Bool
  | some a, some b => some (decide (a < b))
  | _, _ => none

/-- Three-valued Spark `between` (inclusive bounds). -/
def between3 : Option ℚ → ℚ → ℚ → Option Bool
  | some a, lo, hi => some (decide (lo ≤ a) && decide (a ≤ hi))
  | none, _, _ => none

/-- Three-valued string equality against a literal. -/
def eqStr3 (x : Option String) (lit : String) : Option Bool :=
  x.map (fun s => s == lit)

/-- Three-valued Spark `isin` over string literals. -/
def isin3 (x : Option String) (vs : List String) : Option Bool :=
  x.map (fun s => vs.contains s)

/-- A dataframe row: association of column names to cell values. -/
abbrev Row := List (String × Cell)

/-- Value of a column in a row; a name the row does not carry reads as
null (column presence is tracked at the dataframe level). -/
def getCell (r : Row) (c : String) : Cell :=
  match r.lookup c with
  | some v => v
  | none => Cell.null

/-- A dataframe: its column names and its rows. -/
structure DF where
  cols : List String
  rows : List Row

/-- Spark `filter`: a row is kept iff the condition evaluates to true
(a null condition drops the row). -/
def filter3 (df : DF) (p : Row → Option Bool) : List Row :=
  df.rows.filter (fun r => p r == some true)

/-- Column read cast to double. -/
def colD (r : Row) (c : String) : Option ℚ := castDouble (getCell r c)

/-- Column read cast to long. -/
def colL (r : Row) (c : String) : Option Int := castLong (getCell r c)

/-- Column read cast to string. -/
def colS (r : Row) (c : String) : Option String := castString (getCell r c)

/-- Filter of `bad_air`: `cast isNull | cast < 0 | cast > 30` on
`air_temp_c`. -/
def airPred (r : Row) : Option Bool :=
  or3 (or3 (isNull3 (colD r "air_temp_c")) (ltQ3 (colD r "air_temp_c") (some 0)))
      (gtQ3 (colD r "air_temp_c") (some 30))

/-- Rows flagged by the `bad_air` range check. -/
def badAirRows (df : DF) : List Row := filter3 df airPred

/-- Filter of `bad_track`: bounds [-20, 80] on `track_temp_c`. -/
def trackPred (r : Row) : Option Bool :=
  or3 (or3 (isNull3 (colD r "track_temp_c")) (ltQ3 (colD r "track_temp_c") (some (-20))))
      (gtQ3 (colD r "track_temp_c") (some 80))

/-- Rows flagged by the `bad_track` range check. -/
def badTrackRows (df : DF) : List Row := filter3 df trackPred

/-- Filter of `bad_soc`: bounds [0.6, 40] on `battery_soc`. -/
def socPred (r : Row) : Option Bool :=
  or3 (or3 (isNull3 (colD r "battery_soc")) (ltQ3 (colD r "battery_soc") (some (6/10))))
      (gtQ3 (colD r "battery_soc") (some 40))

/-- Rows flagged by the `bad_soc` range check. -/
def badSocRows (df : DF) : List Row := filter3 df socPred

/-- Filter of `bad_fuel`: `cast isNull | cast < 0` on `fuel_kg`. -/
def fuelPred (r : Row) : Option Bool :=
  or3 (isNull3 (colD r "fuel_kg")) (ltQ3 (colD r "fuel_kg") (some 0))

/-- Rows flagged by the `bad_fuel` range check. -/
def badFuelRows (df : DF) : List Row := filter3 df fuelPred

/-- Exactly thirteen decimal digits, as the regex `^\d{13}$` tests. -/
def thirteenDigits (s : String) : Bool :=
  s.length == 13 && s.data.all Char.isDigit

/-- SQL `isNull` on the raw column value. -/
def cellIsNull3 (c : Cell) : Option Bool := some (c == Cell.null)

/-- Filter of `bad_ts`: `timestamp_ms isNull | ~ cast(string) rlike
thirteen digits`. -/
def tsPred (r : Row) : Option Bool :=
  or3 (cellIsNull3 (getCell r "timestamp_ms"))
      (not3 ((colS r "timestamp_ms").map thirteenDigits))

/-- Rows flagged by the timestamp-format check. -/
def badTsRows (df : DF) : List Row := filter3 df tsPred

/-- ASCII case folding of one character, as SQL `lower` folds case. -/
def lowerChar (c : Char) : Char :=
  if 65 ≤ c.toNat ∧ c.toNat ≤ 90 then Char.ofNat (c.toNat + 32) else c

/-- SQL `lower`: each character case-folded. -/
def lowerStr (s : String) : String := String.mk (s.data.map lowerChar)

/-- Leading spaces of a character list removed. -/
def dropSpaces : List Char → List Char
  | [] => []
  | c :: t => if c == ' ' then dropSpaces t else c :: t

/-- SQL `trim`: leading and trailing spaces removed. -/
def trimStr (s : String) : String :=
  String.mk ((dropSpaces (dropSpaces s.data).reverse).reverse)

/-- Antecedent of the conditional check:
`lower(trim(tyre)) == "wet"`, null-propagating. -/
def isWet3 (r : Row) : Option Bool :=
  eqStr3 ((colS r "tyre").map (fun s => lowerStr (trimStr s))) "wet"

/-- Filter of `bad_wet`:
`is_wet & (v8 isNull | ~ v8.between(100, 250))`. -/
def wetPred (r : Row) : Option Bool :=
  and3 (isWet3 r)
       (or3 (isNull3 (colD r "sensor_0008_val"))
            (not3 (between3 (colD r "sensor_0008_val") 100 250)))

/-- Rows flagged by the conditional wet-tyre check. -/
def badWetRows (df : DF) : List Row := filter3 df wetPred

/-- Tyre compounds accepted by the domain check. -/
def allowedTyres : List String := ["Soft", "Medium", "Hard", "Wet", "Intermediate"]

/-- Filter of `bad_tyre`: `~ lower(tyre).isin(lowercased allowed)`.
Note the source lowercases but never trims. -/
def tyrePred (r : Row) : Option Bool :=
  not3 (isin3 ((colS r "tyre").map lowerStr) (allowedTyres.map lowerStr))

/-- Rows flagged by the tyre domain check. -/
def badTyreRows (df : DF) : List Row := filter3 df tyrePred

/-- Violation count of the tyre domain check. -/
def badTyreCount (df : DF) : Nat := (badTyreRows df).length

/-- Primary-key columns of the uniqueness check. -/
def pk : List String := ["event_id", "session", "car_no", "lap"]

/-- Tuple of a row's values at the given key columns. -/
def keyOf (ks : List String) (r : Row) : List Cell :=
  ks.map (fun c => getCell r c)

/-- Spark `groupBy(*ks).count()`: the distinct key tuples, each with the
number of rows carrying it. -/
def groupCounts (ks : List String) (rows : List Row) : List (List Cell × Nat) :=
  ((rows.map (keyOf ks)).dedup).map
    (fun k => (k, rows.countP (fun r => decide (keyOf ks r = k))))

/-- The `dupes` dataframe: key groups of size strictly greater than 1. -/
def dupes (df : DF) : List (List Cell × Nat) :=
  (groupCounts pk df.rows).filter (fun g => decide (1 < g.2))

/-- Violation count reported by `pk_unique`: `dupes.count()`, the number
of oversized groups. -/
def pkUniqueCount (df : DF) : Nat := (dupes df).length

/-- Partition columns of the two window checks. -/
def partitionCols : List String := ["event_id", "session", "car_no"]

/-- Append a row to its key's bucket, keeping first-occurrence key order. -/
def insertPart (k : List Cell) (r : Row) :
    List (List Cell × List Row) → List (List Cell × List Row)
  | [] => [(k, [r])]
  | (k2, rs) :: t =>
      if k = k2 then (k2, rs ++ [r]) :: t else (k2, rs) :: insertPart k r t

/-- Rows of the dataframe bucketed by the window's partition key. -/
def partitionRows (rows : List Row) : List (List Cell × List Row) :=
  rows.foldl (fun acc r => insertPart (keyOf partitionCols r) r acc) []

/-- Order key of the window: `lap` cast to long. -/
def lapKey (r : Row) : Option Int := colL r "lap"

/-- Ascending order on cast longs with nulls first, as Spark's default
ascending sort places them. -/
def leOptI : Option Int → Option Int → Bool
  | none, _ => true
  | some _, none => false
  | some a, some b => decide (a ≤ b)

/-- Window ordering relation on rows: by `lap` cast to long, ascending. -/
def lapLE (a b : Row) : Prop := leOptI (lapKey a) (lapKey b) = true

instance : DecidableRel lapLE := fun a b =>
  inferInstanceAs (Decidable (leOptI (lapKey a) (lapKey b) = true))

instance : IsTotal Row lapLE :=
  ⟨by
    intro a b
    unfold lapLE
    cases lapKey a <;> cases lapKey b <;> simp [leOptI]
    omega⟩

instance : IsTrans Row lapLE :=
  ⟨by
    intro a b c
    unfold lapLE
    cases lapKey a <;> cases lapKey b <;> cases lapKey c <;> simp [leOptI]
    omega⟩

/-- Lag pairing of the tail of a partition: each row with its
predecessor. -/
def lagAux (p : Row) : List Row → List (Option Row × Row)
  | [] => []
  | b :: l => (some p, b) :: lagAux b l

/-- Lag pairing of a partition's rows in window order: the first row has
no predecessor. -/
def lagPairs : List Row → List (Option Row × Row)
  | [] => []
  | a :: l => (none, a) :: lagAux a l

/-- All rows of the dataframe with their lag predecessor, partition by
partition, each partition sorted by the `lap` order key. -/
def windowPairs (df : DF) : List (Option Row × Row) :=
  ((partitionRows df.rows).map
    (fun g => lagPairs (List.insertionSort lapLE g.2))).flatten

/-- Lagged column value: null at a partition's first row, else the
predecessor's cast value (itself possibly null). -/
def prevL (c : String) (p : Option Row) : Option Int :=
  p.bind (fun q => colL q c)

/-- Filter of `lap_back`:
`prev_lap isNotNull & (lap_long < prev_lap)`. -/
def lapViol (pr : Option Row × Row) : Bool :=
  and3 (isNotNull3 (prevL "lap" pr.1))
       (ltI3 (colL pr.2 "lap") (prevL "lap" pr.1)) == some true

/-- Filter of `ts_back`:
`prev_ts isNotNull & (ts_long < prev_ts)`. -/
def tsViol (pr : Option Row × Row) : Bool :=
  and3 (isNotNull3 (prevL "timestamp_ms" pr.1))
       (ltI3 (colL pr.2 "timestamp_ms") (prevL "timestamp_ms" pr.1)) == some true

/-- Window pairs flagged by the lap monotonicity check. -/
def lapBackPairs (df : DF) : List (Option Row × Row) :=
  (windowPairs df).filter lapViol

/-- Window pairs flagged by the timestamp monotonicity check. -/
def tsBackPairs (df : DF) : List (Option Row × Row) :=
  (windowPairs df).filter tsViol

/-- Violation count of `lap_not_decreasing_per_car`. -/
def lapBackCount (df : DF) : Nat := (lapBackPairs df).length

/-- Violation count of `timestamp_not_decreasing_per_car`. -/
def tsBackCount (df : DF) : Nat := (tsBackPairs df).length

/-- A check's entry in the script's `results` list. -/
structure CheckResult where
  name : String
  violations : Nat
  status : String
  note : String
  deriving DecidableEq, Repr

/-- Mirror of `add_result`: status is PASS exactly when the violation
count is zero. -/
def mkResult (name : String) (count : Nat) (note : String) : CheckResult :=
  ⟨name, count, if count == 0 then "PASS" else "FAIL", note⟩

/-- Columns required by the presence check. -/
def requiredCols : List String :=
  ["event_id", "session", "lap", "timestamp_ms", "driver", "team", "car_no", "tyre"]

/-- Result of `required_columns_present`. -/
def requiredResult (df : DF) : CheckResult :=
  let missing := requiredCols.filter (fun c => !(df.cols.contains c))
  mkResult "required_columns_present" (if missing.isEmpty then 0 else 1)
    (if missing.isEmpty then "All present"
     else "Missing: " ++ String.intercalate ", " missing)

/-- Result of `pk_unique`: guarded on the presence of every key column;
a missing key column yields the synthetic count-1 configuration failure. -/
def pkUniqueResult (df : DF) : CheckResult :=
  if pk.all (fun c => df.cols.contains c) then
    mkResult "pk_unique" (pkUniqueCount df) ""
  else
    mkResult "pk_unique" 1
      ("Missing PK cols: " ++
        String.intercalate ", " (pk.filter (fun c => !(df.cols.contains c))))

/-- Spark's analyzer: referencing a column a dataframe does not carry
raises, and the script has no handler for it. -/
def needCol (df : DF) (c : String) : Except String Unit :=
  if df.cols.contains c then Except.ok ()
  else Except.error ("cannot resolve column " ++ c)

/-- Result of the timestamp-format check; unguarded, so it raises when
`timestamp_ms` is absent. -/
def badTsResult (df : DF) : Except String CheckResult := do
  let _ ← needCol df "timestamp_ms"
  Except.ok (mkResult "timestamp_ms_is_13_digits" (badTsRows df).length "")

/-- Columns the two window checks are guarded on. -/
def windowNeed : List String :=
  ["event_id", "session", "car_no", "lap", "timestamp_ms"]

/-- Result of `lap_not_decreasing_per_car`. -/
def lapBackResult (df : DF) : CheckResult :=
  if windowNeed.all (fun c => df.cols.contains c) then
    mkResult "lap_not_decreasing_per_car" (lapBackCount df) ""
  else mkResult "lap_not_decreasing_per_car" 1 "missing columns"

/-- Result of `timestamp_not_decreasing_per_car`. -/
def tsBackResult (df : DF) : CheckResult :=
  if windowNeed.all (fun c => df.cols.contains c) then
    mkResult "timestamp_not_decreasing_per_car" (tsBackCount df) ""
  else mkResult "timestamp_not_decreasing_per_car" 1 "missing columns"

/-- Result of the air-temperature range check; unguarded. -/
def badAirResult (df : DF) : Except String CheckResult := do
  let _ ← needCol df "air_temp_c"
  Except.ok (mkResult "air_temp_c_in_0_30" (badAirRows df).length "")

/-- Result of the track-temperature range check; unguarded. -/
def badTrackResult (df : DF) : Except String CheckResult := do
  let _ ← needCol df "track_temp_c"
  Except.ok (mkResult "track_temp_c_in_-20_80" (badTrackRows df).length "")

/-- Result of the battery state-of-charge range check; unguarded. -/
def badSocResult (df : DF) : Except String CheckResult := do
  let _ ← needCol df "battery_soc"
  Except.ok (mkResult "battery_soc_in_0.6_40" (badSocRows df).length "")

/-- Result of the fuel range check; unguarded. -/
def badFuelResult (df : DF) : Except String CheckResult := do
  let _ ← needCol df "fuel_kg"
  Except.ok (mkResult "fuel_kg_non_negative" (badFuelRows df).length "")

/-- Result of the conditional wet-tyre check: guarded on both columns. -/
def badWetResult (df : DF) : CheckResult :=
  if df.cols.contains "tyre" && df.cols.contains "sensor_0008_val" then
    mkResult "if_wet_then_sensor_0008_val_100_250" (badWetRows df).length ""
  else
    mkResult "if_wet_then_sensor_0008_val_100_250" 1
      "missing tyre or sensor_0008_val"

/-- Result of the tyre domain check: guarded on `tyre`. -/
def badTyreResult (df : DF) : CheckResult :=
  if df.cols.contains "tyre" then
    mkResult "tyre_in_domain" (badTyreRows df).length
      ("Allowed: " ++ String.intercalate ", " allowedTyres)
  else mkResult "tyre_in_domain" 1 "missing tyre"

/-- The module-level check execution, in script order.  Guarded checks
degrade to count-1 results; an unguarded check whose column is missing
raises, and with no handler anywhere the whole run aborts. -/
def runAll (df : DF) : Except String (List CheckResult) := do
  let r1 := requiredResult df
  let r2 := pkUniqueResult df
  let r3 ← badTsResult df
  let r4 := lapBackResult df
  let r5 := tsBackResult df
  let r6 ← badAirResult df
  let r7 ← badTrackResult df
  let r8 ← badSocResult df
  let r9 ← badFuelResult df
  let r10 := badWetResult df
  let r11 := badTyreResult df
  Except.ok [r1, r2, r3, r4, r5, r6, r7, r8, r9, r10, r11]

/-- All columns of the telemetry dataframe that the checks touch. -/
def fullCols : List String :=
  ["event_id", "session", "car_no", "lap", "timestamp_ms", "driver", "team",
   "tyre", "air_temp_c", "track_temp_c", "battery_soc", "fuel_kg",
   "sensor_0008_val"]

/-- A telemetry row of one car in one session, with benign sensor
values, parameterised by lap and timestamp. -/
def baseRow (lap ts : Cell) : Row :=
  [("event_id", Cell.int 1), ("session", Cell.str "R"), ("car_no", Cell.int 5),
   ("lap", lap), ("timestamp_ms", ts), ("driver", Cell.str "dr"),
   ("team", Cell.str "tm"), ("tyre", Cell.str "Soft"),
   ("air_temp_c", Cell.int 20), ("track_temp_c", Cell.int 30),
   ("battery_soc", Cell.int 10), ("fuel_kg", Cell.int 5),
   ("sensor_0008_val", Cell.int 150)]

/-- Replace one column's value in a row. -/
def setCell (r : Row) (c : String) (v : Cell) : Row :=
  r.map (fun p => if p.1 == c then (c, v) else p)

/-- A valid thirteen-digit epoch-millisecond timestamp. -/
def ts13 : Cell := Cell.int 1700000000000

/-- Dataframe with exactly one duplicate primary-key pair: the first two
rows share (event, session, car, lap). -/
def dupDF : DF :=
  ⟨fullCols,
   [baseRow (Cell.int 1) (Cell.int 1700000000001),
    baseRow (Cell.int 1) (Cell.int 1700000000002),
    baseRow (Cell.int 2) (Cell.int 1700000000003)]⟩

/-- Dataframe with three distinct primary keys and no duplicates. -/
def cleanPkDF : DF :=
  ⟨fullCols,
   [baseRow (Cell.int 1) ts13,
    baseRow (Cell.int 2) ts13,
    baseRow (Cell.int 3) ts13]⟩

/-- Dataframe missing `timestamp_ms`: the first unguarded check raises. -/
def noTsDF : DF := ⟨["event_id"], []⟩

/-- Dataframe carrying `timestamp_ms` but not `air_temp_c`: the
timestamp check succeeds and the first range check raises. -/
def noAirDF : DF := ⟨["timestamp_ms"], []⟩

/-- Single partition whose laps arrive as 1, 2, 3, 2, 5. -/
def lapSeqDF : DF :=
  ⟨fullCols,
   [baseRow (Cell.int 1) ts13, baseRow (Cell.int 2) ts13,
    baseRow (Cell.int 3) ts13, baseRow (Cell.int 2) ts13,
    baseRow (Cell.int 5) ts13]⟩

/-- Single partition, laps in order, whose timestamp dips once (at lap
3) below its predecessor. -/
def tsSeqDF : DF :=
  ⟨fullCols,
   [baseRow (Cell.int 1) (Cell.int 1700000000100),
    baseRow (Cell.int 2) (Cell.int 1700000000200),
    baseRow (Cell.int 3) (Cell.int 1700000000150),
    baseRow (Cell.int 4) (Cell.int 1700000000300),
    baseRow (Cell.int 5) (Cell.int 1700000000400)]⟩

/-- Row with a chosen `air_temp_c` value. -/
def airRow (v : Cell) : Row := setCell (baseRow (Cell.int 1) ts13) "air_temp_c" v

/-- Dataframe exercising the air-temperature bounds with
-1, 0, 15, 30, 31 and null. -/
def airDF : DF :=
  ⟨fullCols,
   [airRow (Cell.int (-1)), airRow (Cell.int 0), airRow (Cell.int 15),
    airRow (Cell.int 30), airRow (Cell.int 31), airRow Cell.null]⟩

/-- Dataframe whose single row has a null tyre value. -/
def nullTyreDF : DF :=
  ⟨fullCols, [setCell (baseRow (Cell.int 1) ts13) "tyre" Cell.null]⟩

/-- Row with chosen tyre and sensor values. -/
def wetRow (t v8 : Cell) : Row :=
  setCell (setCell (baseRow (Cell.int 1) ts13) "tyre" t) "sensor_0008_val" v8

/-- Dataframe for the conditional check: a dry row with an extreme
sensor value, a wet row with a too-low value, and a wet row (spelled
with spaces and capitals) with a null value. -/
def wetDF : DF :=
  ⟨fullCols,
   [wetRow (Cell.str "dry") (Cell.int 9999),
    wetRow (Cell.str "wet") (Cell.int 50),
    wetRow (Cell.str "  WET ") Cell.null]⟩

/-- Dataframe whose single row's tyre differs from an allowed compound
only by surrounding whitespace. -/
def spacedTyreDF : DF :=
  ⟨fullCols, [setCell (baseRow (Cell.int 1) ts13) "tyre" (Cell.str " Wet ")]⟩

/-- Dataframe whose timestamps are a 12-digit, a 13-digit and a 14-digit
number. -/
def tsDigitsDF : DF :=
  ⟨fullCols,
   [baseRow (Cell.int 1) (Cell.int 111111111111),
    baseRow (Cell.int 2) (Cell.int 1111111111111),
    baseRow (Cell.int 3) (Cell.int 11111111111111)]⟩

/-- A small fully-well-formed dataframe on which the whole run
completes. -/
def fullDF : DF :=
  ⟨fullCols,
   [baseRow (Cell.int 1) (Cell.int 1700000000000),
    baseRow (Cell.int 2) (Cell.int 1700000000001)]⟩

/-- The result list the run produces on `fullDF`. -/
def fullRes : List CheckResult :=
  match runAll fullDF with
  | Except.ok l => l
  | Except.error _ => []

/-! ### Helper lemmas on the three-valued connectives and filters -/

theorem or3_true_left (x : Option Bool) : or3 (some true) x = some true := by
  cases x with
  | none => rfl
  | some b => cases b <;> rfl

theorem or3_false_left (x : Option Bool) : or3 (some false) x = x := by
  cases x with
  | none => rfl
  | some b => cases b <;> rfl

theorem or3_some_some (a b : Bool) : or3 (some a) (some b) = some (a || b) := by
  cases a <;> cases b <;> rfl

theorem and3_eq_true {x y : Option Bool} :
    and3 x y = some true ↔ x = some true ∧ y = some true := by
  cases x with
  | none =>
      cases y with
      | none => simp [and3]
      | some b => cases b <;> simp [and3]
  | some a =>
      cases a <;>
        (cases y with
         | none => simp [and3]
         | some b => cases b <;> simp [and3])

theorem mem_filter3 {df : DF} {p : Row → Option Bool} {r : Row} :
    r ∈ filter3 df p ↔ r ∈ df.rows ∧ p r = some true := by
  simp [filter3, List.mem_filter]

/-- The `bad_air` filter holds exactly when the cast is null or the cast
value lies outside the inclusive bounds. -/
theorem airPred_eq_true {r : Row} :
    airPred r = some true ↔
      colD r "air_temp_c" = none ∨
        ∃ q, colD r "air_temp_c" = some q ∧ (q < 0 ∨ 30 < q) := by
  unfold airPred
  cases h : colD r "air_temp_c" with
  | none => simp [isNull3, ltQ3, gtQ3, or3_true_left, h]
  | some q =>
      simp [isNull3, ltQ3, gtQ3, or3_false_left, or3_some_some, h,
        decide_eq_true_iff]

/-- The timestamp-format filter holds exactly when the value is null or
its string form is not thirteen decimal digits. -/
theorem tsPred_eq_true {r : Row} :
    tsPred r = some true ↔
      getCell r "timestamp_ms" = Cell.null ∨
        ∃ s, colS r "timestamp_ms" = some s ∧ thirteenDigits s = false := by
  unfold tsPred cellIsNull3
  cases h : getCell r "timestamp_ms" with
  | null => simp [colS, castString, or3_true_left, h]
  | str s =>
      simp [colS, castString, not3, h,
        show (Cell.str s == Cell.null) = false from rfl, or3_false_left]
  | int n =>
      simp [colS, castString, not3, h,
        show (Cell.int n == Cell.null) = false from rfl, or3_false_left]
  | rat q =>
      simp [colS, castString, not3, h,
        show (Cell.rat q == Cell.null) = false from rfl, or3_false_left]

/-- The conditional filter's antecedent holds exactly when the tyre
value casts to a string whose trimmed, case-folded form is "wet". -/
theorem isWet3_eq_true {r : Row} :
    isWet3 r = some true ↔
      ∃ s, colS r "tyre" = some s ∧ lowerStr (trimStr s) = "wet" := by
  unfold isWet3 eqStr3
  cases h : colS r "tyre" with
  | none => simp [h]
  | some s => simp [h]

/-- The conditional filter's consequent-failure part holds exactly when
the sensor cast is null or outside the inclusive bounds. -/
theorem wetRangePart_eq_true {r : Row} :
    or3 (isNull3 (colD r "sensor_0008_val"))
        (not3 (between3 (colD r "sensor_0008_val") 100 250)) = some true ↔
      colD r "sensor_0008_val" = none ∨
        ∃ q, colD r "sensor_0008_val" = some q ∧ (q < 100 ∨ 250 < q) := by
  cases h : colD r "sensor_0008_val" with
  | none => simp [isNull3, between3, not3, or3_true_left, h]
  | some q =>
      have e1 : isNull3 (some q) = some false := rfl
      have e2 : not3 (between3 (some q) 100 250)
          = some (!(decide (100 ≤ q) && decide (q ≤ 250))) := rfl
      rw [e1, e2, or3_false_left]
      simp [decide_eq_true_iff, not_and_or, not_le]

/-- The domain filter holds exactly when the tyre value casts to a
string whose case-folded (untrimmed) form is outside the allowed set. -/
theorem tyrePred_eq_true {r : Row} :
    tyrePred r = some true ↔
      ∃ s, colS r "tyre" = some s ∧
        lowerStr s ∉ allowedTyres.map lowerStr := by
  unfold tyrePred isin3
  cases h : colS r "tyre" with
  | none => simp [not3, h]
  | some s => simp [not3, h, List.elem_iff]

theorem and3_true_left (x : Option Bool) : and3 (some true) x = x := by
  cases x with
  | none => rfl
  | some b => cases b <;> rfl

/-- Every lagged pair of a chained list relates predecessor to row. -/
theorem lagAux_rel {R : Row → Row → Prop} :
    ∀ {l : List Row} {p x y : Row},
      List.Chain' R (p :: l) → (some x, y) ∈ lagAux p l → R x y := by
  intro l
  induction l with
  | nil =>
      intro p x y _ hm
      simp [lagAux] at hm
  | cons b t ih =>
      intro p x y hc hm
      rw [lagAux] at hm
      rcases List.mem_cons.mp hm with he | hm2
      · have hxy : x = p ∧ y = b := by
          constructor
          · exact Option.some.inj congr(($he).1)
          · exact congr(($he).2)
        obtain ⟨hx, hy⟩ := hxy
        subst hx; subst hy
        exact (List.chain'_cons.mp hc).1
      · exact ih (List.chain'_cons.mp hc).2 hm2

/-- A window pair with a predecessor respects the window's order key. -/
theorem windowPairs_rel {df : DF} {x y : Row} :
    (some x, y) ∈ windowPairs df → lapLE x y := by
  intro hm
  unfold windowPairs at hm
  rw [List.mem_flatten] at hm
  obtain ⟨l, hl, hpair⟩ := hm
  rw [List.mem_map] at hl
  obtain ⟨g, hg, rfl⟩ := hl
  have hs : List.Sorted lapLE (List.insertionSort lapLE g.2) :=
    List.sorted_insertionSort lapLE g.2
  cases hsort : List.insertionSort lapLE g.2 with
  | nil =>
      rw [hsort] at hpair
      simp [lagPairs] at hpair
  | cons a t =>
      rw [hsort] at hpair
      rw [lagPairs] at hpair
      rcases List.mem_cons.mp hpair with he | hm2
      · exact absurd congr(($he).1) (by simp)
      · refine lagAux_rel ?_ hm2
        rw [hsort] at hs
        exact List.Pairwise.chain' hs

/-- The `lap_back` filter fires exactly on a non-null predecessor lap
strictly above a non-null current lap. -/
theorem lapViol_eq_true {op : Option Row} {r : Row} :
    lapViol (op, r) = true ↔
      ∃ p pl ll, op = some p ∧ colL p "lap" = some pl ∧
        colL r "lap" = some ll ∧ ll < pl := by
  cases op with
  | none => simp [lapViol, prevL, isNotNull3, and3]
  | some p =>
      cases hp : colL p "lap" with
      | none => simp [lapViol, prevL, isNotNull3, and3, hp]
      | some pl =>
          cases hr : colL r "lap" with
          | none => simp [lapViol, prevL, isNotNull3, ltI3, and3, and3_true_left, hp, hr]
          | some ll =>
              simp [lapViol, prevL, isNotNull3, ltI3, and3_true_left, hp, hr,
                decide_eq_true_iff]

/-- The `ts_back` filter fires exactly on a non-null predecessor
timestamp strictly above a non-null current timestamp. -/
theorem tsViol_eq_true {op : Option Row} {r : Row} :
    tsViol (op, r) = true ↔
      ∃ p pl ll, op = some p ∧ colL p "timestamp_ms" = some pl ∧
        colL r "timestamp_ms" = some ll ∧ ll < pl := by
  cases op with
  | none => simp [tsViol, prevL, isNotNull3, and3]
  | some p =>
      cases hp : colL p "timestamp_ms" with
      | none => simp [tsViol, prevL, isNotNull3, and3, hp]
      | some pl =>
          cases hr : colL r "timestamp_ms" with
          | none => simp [tsViol, prevL, isNotNull3, ltI3, and3, and3_true_left, hp, hr]
          | some ll =>
              simp [tsViol, prevL, isNotNull3, ltI3, and3_true_left, hp, hr,
                decide_eq_true_iff]

/-- Window ordering spelt out on the cast lap values. -/
theorem lapLE_le {x y : Row} {pl ll : Int}
    (hx : colL x "lap" = some pl) (hy : colL y "lap" = some ll)
    (h : lapLE x y) : pl ≤ ll := by
  unfold lapLE lapKey at h
  rw [hx, hy] at h
  simpa [leOptI, decide_eq_true_iff] using h

/-- The lap check compares the very column the window is ordered by, so
its filter can never keep a row. -/
theorem lapBackPairs_nil (df : DF) : lapBackPairs df = [] := by
  unfold lapBackPairs
  rw [List.filter_eq_nil_iff]
  intro pr hpr
  obtain ⟨op, r⟩ := pr
  intro hviol
  rw [lapViol_eq_true] at hviol
  obtain ⟨p, pl, ll, hop, hp, hr, hlt⟩ := hviol
  subst hop
  have hle := lapLE_le hp hr (windowPairs_rel hpr)
  omega

/-- Each group's reported size is the multiplicity of its key among the
rows. -/
theorem groupCounts_count {ks : List String} {rows : List Row}
    {g : List Cell × Nat} (hg : g ∈ groupCounts ks rows) :
    g.2 = rows.countP (fun r => decide (keyOf ks r = g.1)) := by
  unfold groupCounts at hg
  rw [List.mem_map] at hg
  obtain ⟨k, hk, rfl⟩ := hg
  rfl

/-- In a duplicate-free list every value occurs at most once. -/
theorem countP_eq_le_one {α : Type} [DecidableEq α] :
    ∀ {l : List α}, l.Nodup → ∀ a : α, l.countP (fun x => decide (x = a)) ≤ 1 := by
  intro l
  induction l with
  | nil => intro _ a; simp
  | cons b t ih =>
      intro hn a
      have hnd := List.nodup_cons.mp hn
      rw [List.countP_cons]
      by_cases hba : b = a
      · subst hba
        have hz : t.countP (fun x => decide (x = b)) = 0 := by
          rw [List.countP_eq_zero]
          intro x hx
          simp only [decide_eq_true_eq]
          intro hxb
          exact hnd.1 (hxb ▸ hx)
        simp [hz]
      · simp only [decide_eq_true_eq, hba]
        simpa using ih hnd.2 a

/-- Pairwise-distinct key tuples leave the duplicate-group list empty. -/
theorem pkUnique_nodup_zero {df : DF}
    (h : (df.rows.map (keyOf pk)).Nodup) : pkUniqueCount df = 0 := by
  unfold pkUniqueCount
  rw [List.length_eq_zero]
  unfold dupes
  rw [List.filter_eq_nil_iff]
  intro g hg
  have hc := groupCounts_count hg
  have hle := countP_eq_le_one h g.1
  rw [List.countP_map] at hle
  have hle2 : List.countP (fun r => decide (keyOf pk r = g.1)) df.rows ≤ 1 := hle
  rw [← hc] at hle2
  simp only [decide_eq_true_eq]
  omega

example : pkUniqueCount cleanPkDF = 0 :=
  pkUnique_nodup_zero (by decide)

/-- Inversion for a successful monadic bind in the `Except` model. -/
theorem except_bind_ok {α β : Type} {x : Except String α}
    {f : α → Except String β} {b : β}
    (h : x >>= f = Except.ok b) : ∃ a, x = Except.ok a ∧ f a = Except.ok b := by
  cases x with
  | error e => simp [Bind.bind, Except.bind] at h
  | ok a => exact ⟨a, rfl, by simpa [Bind.bind, Except.bind] using h⟩

/-- An error raised by the first unguarded check aborts the whole run. -/
theorem runAll_error_ts {df : DF} {e : String}
    (h : badTsResult df = Except.error e) : runAll df = Except.error e := by
  simp only [runAll, h]
  rfl

/-- A successful timestamp-check result is the literal record built by
`add_result`. -/
theorem badTsResult_ok {df : DF} {r : CheckResult}
    (h : badTsResult df = Except.ok r) :
    r = mkResult "timestamp_ms_is_13_digits" (badTsRows df).length "" := by
  unfold badTsResult needCol at h
  by_cases hc : "timestamp_ms" ∈ df.cols
  · simp [hc, Bind.bind, Except.bind] at h
    exact h.symm
  · simp [hc, Bind.bind, Except.bind] at h

/-- When the run completes, the third report entry is the timestamp
check's, carrying the count of malformed-timestamp rows. -/
theorem runAll_ok_third {df : DF} {res : List CheckResult}
    (h : runAll df = Except.ok res) :
    res[2]? = some (mkResult "timestamp_ms_is_13_digits" (badTsRows df).length "") := by
  simp only [runAll] at h
  obtain ⟨r3, h3, h⟩ := except_bind_ok h
  obtain ⟨r6, h6, h⟩ := except_bind_ok h
  obtain ⟨r7, h7, h⟩ := except_bind_ok h
  obtain ⟨r8, h8, h⟩ := except_bind_ok h
  obtain ⟨r9, h9, h⟩ := except_bind_ok h
  have hres := Except.ok.inj h
  rw [← hres]
  simp [badTsResult_ok h3]

/-! ### Claim theorems -/

/-- C1 counterexample: on a dataset with exactly one duplicate pair the
reported violation count is 1 (one oversized group), not 2. -/
theorem C1_cex_one_dup_pair_counts_one : pkUniqueCount dupDF = 1 := by decide

/-- C1 (amended): over a key with no duplicate key tuples the violation
count is 0; a dataset with exactly one duplicate pair yields violation
count 1, because each oversized group is reported once, as a group row
annotated with its duplicate count (here 2), not once per member row. -/
theorem C1_pk_unique_counts_groups :
    (∀ df : DF, (df.rows.map (keyOf pk)).Nodup → pkUniqueCount df = 0)
      ∧ pkUniqueCount dupDF = 1 ∧ (dupes dupDF).map Prod.snd = [2] :=
  ⟨fun _ h => pkUnique_nodup_zero h, by decide, by decide⟩

/-- C2 counterexample: on a view missing `timestamp_ms` the run does not
complete and produces no result for any check — it aborts with the
analyzer's error. -/
theorem C2_cex_run_aborts :
    runAll noTsDF = Except.error "cannot resolve column timestamp_ms" := by rfl

/-- C2 (amended): the script contains no handler, so an error raised
during a check's evaluation is not converted into a FAIL result: it
propagates and aborts the whole run, and the remaining checks are never
evaluated. -/
theorem C2_no_error_isolation :
    ∀ (df : DF) (e : String),
      badTsResult df = Except.error e → runAll df = Except.error e :=
  fun _ _ h => runAll_error_ts h

/-- C2 witness: the propagation theorem applied to a concrete view. -/
theorem C2_no_error_isolation_witness :
    runAll (DF.mk ["lap"] []) = Except.error "cannot resolve column timestamp_ms" :=
  C2_no_error_isolation (DF.mk ["lap"] []) "cannot resolve column timestamp_ms" (by rfl)

/-- C3 counterexample: a view carrying `timestamp_ms` but not
`air_temp_c` does not get a count-1 configuration failure for the range
check — the run crashes on the unguarded column reference. -/
theorem C3_cex_range_check_crashes :
    runAll noAirDF = Except.error "cannot resolve column air_temp_c" := by rfl

/-- C3 (amended): a missing referenced column is reported as a single
synthetic violation (count 1) for the uniqueness, sequence, conditional
and domain checks, which are guarded; the range checks and the
timestamp-format check reference their columns unguarded, so a missing
column there raises an unhandled analyzer error instead. -/
theorem C3_missing_column_handling :
    (∀ (df : DF) (c : String), c ∈ pk → c ∉ df.cols →
        (pkUniqueResult df).violations = 1 ∧ (pkUniqueResult df).status = "FAIL")
      ∧ (∀ (df : DF) (c : String), c ∈ windowNeed → c ∉ df.cols →
          (lapBackResult df).violations = 1 ∧ (tsBackResult df).violations = 1)
      ∧ (∀ df : DF, "tyre" ∉ df.cols ∨ "sensor_0008_val" ∉ df.cols →
          (badWetResult df).violations = 1)
      ∧ (∀ df : DF, "tyre" ∉ df.cols → (badTyreResult df).violations = 1)
      ∧ (∀ df : DF, "air_temp_c" ∉ df.cols →
          badAirResult df = Except.error "cannot resolve column air_temp_c")
      ∧ (∀ df : DF, "timestamp_ms" ∉ df.cols →
          badTsResult df = Except.error "cannot resolve column timestamp_ms") := by
  refine ⟨?_, ?_, ?_, ?_, ?_, ?_⟩
  · intro df c hc hnc
    have hcond : ¬ ∀ x ∈ pk, x ∈ df.cols := fun hall => hnc (hall c hc)
    simp [pkUniqueResult, mkResult, hcond]
  · intro df c hc hnc
    have hcond : ¬ ∀ x ∈ windowNeed, x ∈ df.cols := fun hall => hnc (hall c hc)
    constructor
    · simp [lapBackResult, mkResult, hcond]
    · simp [tsBackResult, mkResult, hcond]
  · intro df h
    have hcond : ¬ ("tyre" ∈ df.cols ∧ "sensor_0008_val" ∈ df.cols) := by
      rcases h with h | h
      · exact fun hp => h hp.1
      · exact fun hp => h hp.2
    simp [badWetResult, mkResult, hcond]
  · intro df h
    simp [badTyreResult, h, mkResult]
  · intro df h
    simp [badAirResult, needCol, h, Bind.bind, Except.bind]
  · intro df h
    simp [badTsResult, needCol, h, Bind.bind, Except.bind]

/-- C4 counterexample: the single partition with laps 1, 2, 3, 2, 5 has
violation count 0 for the lap check, not 1 — the window is ordered by
the very column being compared. -/
theorem C4_cex_lap_sequence_zero : lapBackCount lapSeqDF = 0 := by decide

/-- C4 (amended): within a partition ordered by the lap key a row is
flagged iff both its compared value and its predecessor's are non-null
and the row's value is strictly below the predecessor's; the first row
of a partition is never flagged; because the lap comparison orders by
the compared column itself it can never fire — laps [1,2,3,2,5] give
count 0, not 1 — while the timestamp comparison can (count 1 on the
dipping-timestamp partition). -/
theorem C4_ordered_sequence :
    (∀ (df : DF) (op : Option Row) (r : Row),
        (op, r) ∈ tsBackPairs df ↔
          (op, r) ∈ windowPairs df ∧
            ∃ p pl ll, op = some p ∧ colL p "timestamp_ms" = some pl ∧
              colL r "timestamp_ms" = some ll ∧ ll < pl)
      ∧ (∀ (df : DF) (r : Row), (none, r) ∉ tsBackPairs df)
      ∧ (∀ df : DF, lapBackCount df = 0)
      ∧ tsBackCount tsSeqDF = 1 := by
  refine ⟨?_, ?_, ?_, by decide⟩
  · intro df op r
    unfold tsBackPairs
    rw [List.mem_filter]
    exact and_congr_right fun _ => tsViol_eq_true
  · intro df r hmem
    unfold tsBackPairs at hmem
    rcases (List.mem_filter.mp hmem) with ⟨-, hv⟩
    obtain ⟨p, pl, ll, hop, -, -, -⟩ := tsViol_eq_true.mp hv
    exact Option.noConfusion hop
  · intro df
    unfold lapBackCount
    rw [lapBackPairs_nil]
    rfl

/-- C5: the air-temperature range check flags a row exactly when the
cast value is null (null cell or non-coercible) or outside the inclusive
bounds [0, 30]; on the values -1, 0, 15, 30, 31, null it flags exactly
-1, 31 and null. -/
theorem C5_range_check :
    (∀ (df : DF) (r : Row),
        r ∈ badAirRows df ↔
          r ∈ df.rows ∧
            (colD r "air_temp_c" = none ∨
              ∃ q, colD r "air_temp_c" = some q ∧ (q < 0 ∨ 30 < q)))
      ∧ badAirRows airDF =
          [airRow (Cell.int (-1)), airRow (Cell.int 31), airRow Cell.null] := by
  refine ⟨?_, by decide⟩
  intro df r
  unfold badAirRows
  rw [mem_filter3, airPred_eq_true]

/-- C6 counterexample: a null tyre value is silently passed over by the
domain check — the single-null-row view yields violation count 0, not
1. -/
theorem C6_cex_null_tyre_passes : badTyreCount nullTyreDF = 0 := by decide

/-- C6 (amended): null or non-coercible values are counted as
violations by the range checks and, under a wet antecedent, by the
conditional check; but the tyre domain check and the two
ordered-sequence filters never flag a row whose relevant value is null
or non-coercible — those rows are silently passed over. -/
theorem C6_value_fault_handling :
    (∀ (df : DF) (r : Row), r ∈ df.rows → colD r "air_temp_c" = none →
        r ∈ badAirRows df)
      ∧ (∀ (df : DF) (r : Row), r ∈ df.rows → isWet3 r = some true →
          colD r "sensor_0008_val" = none → r ∈ badWetRows df)
      ∧ (∀ (df : DF) (r : Row), r ∈ df.rows → colS r "tyre" = none →
          r ∉ badTyreRows df)
      ∧ (∀ (op : Option Row) (r : Row), colL r "lap" = none →
          lapViol (op, r) = false)
      ∧ (∀ (op : Option Row) (r : Row), colL r "timestamp_ms" = none →
          tsViol (op, r) = false) := by
  refine ⟨?_, ?_, ?_, ?_, ?_⟩
  · intro df r hr hnull
    exact mem_filter3.mpr ⟨hr, airPred_eq_true.mpr (Or.inl hnull)⟩
  · intro df r hr hwet hnull
    refine mem_filter3.mpr ⟨hr, ?_⟩
    unfold wetPred
    rw [hwet, hnull]
    rfl
  · intro df r hrows hnull hmem
    rcases mem_filter3.mp hmem with ⟨-, hp⟩
    unfold tyrePred isin3 at hp
    rw [hnull] at hp
    simp [not3] at hp
  · intro op r h
    cases hv : lapViol (op, r) with
    | false => rfl
    | true =>
        obtain ⟨p, pl, ll, -, -, hr, -⟩ := lapViol_eq_true.mp hv
        exact Option.noConfusion (h.symm.trans hr)
  · intro op r h
    cases hv : tsViol (op, r) with
    | false => rfl
    | true =>
        obtain ⟨p, pl, ll, -, -, hr, -⟩ := tsViol_eq_true.mp hv
        exact Option.noConfusion (h.symm.trans hr)

/-- C7: the conditional check flags a row exactly when the trimmed,
case-folded tyre value is "wet" and the sensor cast is null or outside
the inclusive bounds [100, 250]; concretely, the dry row with sensor
9999 is not flagged while the wet rows with sensor 50 and with a null
sensor are. -/
theorem C7_conditional_check :
    (∀ (df : DF) (r : Row),
        r ∈ badWetRows df ↔
          r ∈ df.rows ∧
            (∃ s, colS r "tyre" = some s ∧ lowerStr (trimStr s) = "wet") ∧
            (colD r "sensor_0008_val" = none ∨
              ∃ q, colD r "sensor_0008_val" = some q ∧ (q < 100 ∨ 250 < q)))
      ∧ badWetRows wetDF =
          [wetRow (Cell.str "wet") (Cell.int 50),
           wetRow (Cell.str "  WET ") Cell.null] := by
  refine ⟨?_, by decide⟩
  intro df r
  unfold badWetRows
  rw [mem_filter3]
  unfold wetPred
  rw [and3_eq_true, isWet3_eq_true, wetRangePart_eq_true]

/-- C8 counterexample: a tyre value differing from an allowed compound
only by surrounding whitespace is flagged, not passed — the filter
lowercases but never trims. -/
theorem C8_cex_spaced_value_flagged : badTyreCount spacedTyreDF = 1 := by decide

/-- C8 (amended): the domain check flags a row exactly when the tyre
value casts to a string whose case-folded — but untrimmed — form is
outside the allowed set; a value differing from an allowed compound only
by surrounding whitespace is therefore a violation. -/
theorem C8_domain_check :
    (∀ (df : DF) (r : Row),
        r ∈ badTyreRows df ↔
          r ∈ df.rows ∧
            ∃ s, colS r "tyre" = some s ∧
              lowerStr s ∉ allowedTyres.map lowerStr)
      ∧ badTyreRows spacedTyreDF =
          [setCell (baseRow (Cell.int 1) ts13) "tyre" (Cell.str " Wet ")] := by
  refine ⟨?_, by decide⟩
  intro df r
  unfold badTyreRows
  rw [mem_filter3, tyrePred_eq_true]

/-- C10: whenever the run completes, its third report entry is the check
named `timestamp_ms_is_13_digits` carrying the malformed-timestamp row
count; a row is flagged exactly when its timestamp is null or its string
form is not thirteen decimal digits; a 12- and a 14-digit numeric
timestamp are flagged while a 13-digit one passes. -/
theorem C10_timestamp_format_check :
    (∀ (df : DF) (res : List CheckResult),
        runAll df = Except.ok res →
          res[2]? = some (mkResult "timestamp_ms_is_13_digits"
            (badTsRows df).length ""))
      ∧ (∀ (df : DF) (r : Row),
          r ∈ badTsRows df ↔
            r ∈ df.rows ∧
              (getCell r "timestamp_ms" = Cell.null ∨
                ∃ s, colS r "timestamp_ms" = some s ∧ thirteenDigits s = false))
      ∧ badTsRows tsDigitsDF =
          [baseRow (Cell.int 1) (Cell.int 111111111111),
           baseRow (Cell.int 3) (Cell.int 11111111111111)] := by
  refine ⟨fun df res h => runAll_ok_third h, ?_, by decide⟩
  intro df r
  unfold badTsRows
  rw [mem_filter3, tsPred_eq_true]

/-- C10 witness: on a concrete well-formed view the run completes and
its third entry is the timestamp check's result. -/
theorem C10_timestamp_format_check_witness :
    fullRes[2]? = some (mkResult "timestamp_ms_is_13_digits"
      (badTsRows fullDF).length "") :=
  C10_timestamp_format_check.1 fullDF fullRes (by rfl)

end RacingDQ
